import Mathlib

/-!
Verification of the docker orchestrator engine (`orch/docker/docker.go`) of
longhorn-orc: a shallow embedding of its data model and operations, followed by
theorems about the embedded operations.

Conventions of the embedding:
* Go errors built with `errors.Errorf` become `GoErr.base`, and errors built
  with `errors.Wrap`/`errors.Wrapf` become `GoErr.wrap`.  `pkg/errors.Wrap`
  returns nil when its cause is nil; `errorsWrap` mirrors that.
* The etcd-backed metadata store (`getVolume`/`setVolume`, in a file of the
  repository outside the embedded source) is modelled from the spec as an
  association list keyed by volume name.
* Container-runtime effects are modelled by an oracle (`Runtime`) giving each
  call's result, and every operation returns the list of runtime calls it
  issued (`RtEvent`) together with its Go return value.
* `time.Time` values are modelled as `Nat` (0 is Go's zero time) and the
  current time is passed explicitly.
-/

/-- Go errors as produced by `github.com/pkg/errors`: a base message
(`errors.Errorf`) or a wrapping of a cause (`errors.Wrap`). -/
inductive GoErr : Type where
  | base (msg : String)
  | wrap (msg : String) (cause : GoErr)
deriving DecidableEq, Repr

/-- The `errors.Wrap` of `pkg/errors`: returns nil when the wrapped error is nil. -/
def errorsWrap (err : Option GoErr) (msg : String) : Option GoErr :=
  match err with
  | none => none
  | some e => some (GoErr.wrap msg e)

/-- Result of a Go function call: a value, a returned error, or a runtime
panic (such as a nil-pointer dereference). -/
inductive GoResult (α : Type) : Type where
  | ok (a : α)
  | err (e : GoErr)
  | panicked (msg : String)
deriving DecidableEq, Repr

/-- The `types.InstanceType` tag. -/
inductive InstanceType : Type where
  | controller
  | replica
  | noneType
deriving DecidableEq, Repr

/-- The `types.HostInfo` record (the fields the embedded code uses). -/
structure HostInfo : Type where
  UUID : String
  Name : String
  Address : String
deriving DecidableEq, Repr

/-- Modelled from the spec: a Replica record embedded in a Volume,
`{Name, Address, BadTimestamp}` (the `types` package is not part of the
embedded source).  `BadTimestamp` is a `Nat`-modelled time, 0 = never marked. -/
structure ReplicaInfo : Type where
  Name : String
  Address : String
  BadTimestamp : Nat
deriving DecidableEq, Repr

/-- Modelled from the spec: a Volume record
`{Name, Size, LonghornImage, Replicas}`; the replica map is modelled as an
association list from replica key to Replica record. -/
structure VolumeInfo : Type where
  Name : String
  Size : Int
  LonghornImage : String
  Replicas : List (String × ReplicaInfo)
deriving DecidableEq, Repr

/-- The `types.InstanceInfo` record (Go field `Type` is written `type` here). -/
structure InstanceInfo : Type where
  ID : String
  type : InstanceType
  Name : String
  HostID : String
  Address : String
  Running : Bool
deriving DecidableEq, Repr

/-- The `types.ControllerInfo` record: the instance wrapped in a controller-typed
result. -/
structure ControllerInfo : Type where
  InstanceInfo : InstanceInfo
deriving DecidableEq, Repr

/-- The `dockerScheduleData` payload: the per-action payload of a schedule request. -/
structure dockerScheduleData : Type where
  InstanceName : String
  VolumeName : String
  VolumeSize : String
  LonghornImage : String
  ReplicaAddresses : List String
deriving DecidableEq, Repr

/-- The zero value of `dockerScheduleData` (`var data dockerScheduleData`). -/
def zeroScheduleData : dockerScheduleData :=
  { InstanceName := "", VolumeName := "", VolumeSize := "", LonghornImage := "",
    ReplicaAddresses := [] }

/-- The opaque `Data []byte` payload of `types.ScheduleData`, modelled by what
it unmarshals to: empty bytes, bytes that unmarshal to a
`dockerScheduleData`, or malformed bytes. -/
inductive SchedulePayload : Type where
  | empty
  | payload (d : dockerScheduleData)
  | malformed
deriving DecidableEq, Repr

/-- The `types.ScheduleData` record. -/
structure ScheduleData : Type where
  Orchestrator : String
  Data : SchedulePayload
deriving DecidableEq, Repr

/-- The `types.ScheduleInstance` record (Go field `Type` is written `type` here). -/
structure ScheduleInstance : Type where
  ID : String
  HostID : String
  type : InstanceType
deriving DecidableEq, Repr

/-- The `types.ScheduleItem` record.  `Action` is a string tag as in the source. -/
structure ScheduleItem : Type where
  Action : String
  Instance : ScheduleInstance
  Data : ScheduleData
deriving DecidableEq, Repr

/-- The engine kind tag, `OrcName = "docker"` (docker.go line 33). -/
def OrcName : String := "docker"

/-- Modelled from the spec: the action tags of the `types` package (not part
of the embedded source); the values are chosen distinct, which is all the
dispatch code relies on. -/
def ScheduleActionCreateController : String := "action.create-controller"

/-- Modelled from the spec: the create-replica action tag. -/
def ScheduleActionCreateReplica : String := "action.create-replica"

/-- Modelled from the spec: the start-instance action tag. -/
def ScheduleActionStartInstance : String := "action.start-instance"

/-- Modelled from the spec: the stop-instance action tag. -/
def ScheduleActionStopInstance : String := "action.stop-instance"

/-- Modelled from the spec: the delete-instance action tag. -/
def ScheduleActionDeleteInstance : String := "action.delete-instance"

/-- The engine state the embedded operations read: the current host identity
(`dockerOrc.currentHost`). -/
structure dockerOrc : Type where
  currentHost : HostInfo
deriving DecidableEq, Repr

/-- Operation `GetCurrentHostID` (docker.go lines 172-174). -/
def GetCurrentHostID (d : dockerOrc) : String := d.currentHost.UUID

/-- Modelled from the spec: the Metadata Store's Volume table, an association
list from volume name to Volume record. -/
abbrev Store : Type := List (String × VolumeInfo)

/-- Modelled from the spec: the etcd-backed `getVolume` (not under the
embedded source).  Returns the record when present and a key-not-found error
when absent, matching the NotFound behaviour the spec ascribes to the store. -/
def getVolume (s : Store) (name : String) : Except GoErr VolumeInfo :=
  match List.lookup name s with
  | some v => Except.ok v
  | none => Except.error (GoErr.base ("Key not found: " ++ name))

/-- The Go `(volume, err)` pair view of `getVolume`, as the call sites
destructure it. -/
def getVolumePair (s : Store) (name : String) : Option VolumeInfo × Option GoErr :=
  match getVolume s name with
  | Except.ok v => (some v, none)
  | Except.error e => (none, some e)

/-- Modelled from the spec: the etcd-backed `setVolume` (not under the
embedded source): stores the record under its name, overwriting any previous
record of that name. -/
def setVolume : Store → VolumeInfo → Store
  | [], v => [(v.Name, v)]
  | (k, w) :: rest, v =>
      if k = v.Name then (v.Name, v) :: rest else (k, w) :: setVolume rest v

/-- The existence check of `CreateVolume` with the store read's result made
explicit, exactly the control flow of docker.go lines 187-196: the duplicate
error fires only when the read returned no error and a non-nil record. -/
def createVolumeWith (read : Option VolumeInfo × Option GoErr) (s : Store)
    (volume : VolumeInfo) : Except GoErr VolumeInfo × Store :=
  if read.2.isNone && read.1.isSome then
    (Except.error (GoErr.base ("volume " ++ volume.Name ++ " already exists")), s)
  else
    (Except.ok volume, setVolume s volume)

/-- Operation `CreateVolume` (docker.go lines 187-196). -/
def CreateVolume (s : Store) (volume : VolumeInfo) : Except GoErr VolumeInfo × Store :=
  createVolumeWith (getVolumePair s volume.Name) s volume

/-- Operation `GetVolume` (docker.go lines 202-205): a pass-through to the store. -/
def GetVolume (s : Store) (volumeName : String) : Except GoErr VolumeInfo :=
  getVolume s volumeName

/-- Operation `UpdateVolume` (docker.go lines 207-213): fails when the prior record
cannot be read, otherwise writes the record. -/
def UpdateVolume (s : Store) (volume : VolumeInfo) : Except GoErr Unit × Store :=
  match getVolume s volume.Name with
  | Except.error _ =>
      (Except.error (GoErr.base
        ("cannot update volume " ++ volume.Name ++ " because it doesn't exists")), s)
  | Except.ok _ => (Except.ok (), setVolume s volume)

/-- The replica-stamping loop of `MarkBadReplica` (docker.go lines 224-230):
set `BadTimestamp := now` on the first entry whose `Name` matches, leave the
rest untouched (`break` after the first match). -/
def stampFirst (now : Nat) (name : String) :
    List (String × ReplicaInfo) → List (String × ReplicaInfo)
  | [] => []
  | (k, r) :: rest =>
      if r.Name = name then (k, { r with BadTimestamp := now }) :: rest
      else (k, r) :: stampFirst now name rest

/-- Operation `MarkBadReplica` (docker.go lines 219-235), with the current time passed
explicitly. -/
def MarkBadReplica (s : Store) (volumeName : String) (replica : ReplicaInfo)
    (now : Nat) : Except GoErr Unit × Store :=
  match getVolume s volumeName with
  | Except.error e =>
      (Except.error (GoErr.wrap "fail to mark bad replica, cannot get volume" e), s)
  | Except.ok v =>
      let v2 := { v with Replicas := stampFirst now replica.Name v.Replicas }
      match UpdateVolume s v2 with
      | (Except.error e, s2) =>
          (Except.error (GoErr.wrap "fail to mark bad replica, cannot update volume" e), s2)
      | (Except.ok _, s2) => (Except.ok (), s2)

/-- The inspection result the container runtime returns
(`types.ContainerJSON`: the fields `generateInstanceInfo` reads). -/
structure InspectJSON : Type where
  ID : String
  Name : String
  IPAddress : String
  Running : Bool
deriving DecidableEq, Repr

/-- A call issued to the Container Runtime, recorded in order. -/
inductive RtEvent : Type where
  | create (name : String) (image : String) (cmd : List String)
  | start (id : String)
  | stop (id : String)
  | remove (id : String)
  | inspect (id : String)
deriving DecidableEq, Repr

/-- The Container Runtime and readiness-prober oracle: the result each call
would return.  `createRes` is keyed by container name and command,
the per-container calls by container ID, the waits by URL or device path. -/
structure Runtime : Type where
  createRes : String → List String → Except GoErr String
  startRes : String → Option GoErr
  stopRes : String → Option GoErr
  removeRes : String → Option GoErr
  inspectRes : String → Except GoErr InspectJSON
  waitAPIRes : String → Option GoErr
  waitDeviceRes : String → Option GoErr

/-- Go's `strings.TrimPrefix(name, "/")`: drop one leading slash when present. -/
def trimSlash (s : String) : String :=
  match s.data with
  | '/' :: rest => String.mk rest
  | _ => s

/-- Helper `generateInstanceInfo` (docker.go lines 460-475): derive the instance
record from a live inspection, stripping the runtime's leading "/" from the
name and stamping the current host's UUID. -/
def generateInstanceInfo (d : dockerOrc) (rt : Runtime) (instanceID : String)
    (instanceType : InstanceType) : List RtEvent × Except GoErr InstanceInfo :=
  ([RtEvent.inspect instanceID],
    match rt.inspectRes instanceID with
    | Except.error e => Except.error (GoErr.wrap "fail to inspect replica container" e)
    | Except.ok j =>
        Except.ok
          { ID := j.ID
            type := instanceType
            Name := trimSlash j.Name
            HostID := GetCurrentHostID d
            Address := j.IPAddress
            Running := j.Running })

/-- The local `startInstance` handler (docker.go lines 499-505). -/
def startInstance (d : dockerOrc) (rt : Runtime) (instanceID : String)
    (instanceType : InstanceType) : List RtEvent × Except GoErr InstanceInfo :=
  match rt.startRes instanceID with
  | some e =>
      ([RtEvent.start instanceID],
        Except.error (GoErr.wrap ("fail to start instance " ++ instanceID) e))
  | none =>
      let (evs, r) := generateInstanceInfo d rt instanceID instanceType
      (RtEvent.start instanceID :: evs, r)

/-- The local `stopInstance` handler (docker.go lines 529-535). -/
def stopInstance (d : dockerOrc) (rt : Runtime) (instanceID : String)
    (instanceType : InstanceType) : List RtEvent × Except GoErr InstanceInfo :=
  match rt.stopRes instanceID with
  | some e =>
      ([RtEvent.stop instanceID],
        Except.error (GoErr.wrap ("fail to start instance " ++ instanceID) e))
  | none =>
      let (evs, r) := generateInstanceInfo d rt instanceID instanceType
      (RtEvent.stop instanceID :: evs, r)

/-- The local `removeInstance` handler (docker.go lines 559-570): remove the
container and return a minimal instance record carrying only ID and type. -/
def removeInstance (rt : Runtime) (instanceID : String)
    (instanceType : InstanceType) : List RtEvent × Except GoErr InstanceInfo :=
  match rt.removeRes instanceID with
  | some e =>
      ([RtEvent.remove instanceID],
        Except.error (GoErr.wrap ("Fail to remove instance " ++ instanceID) e))
  | none =>
      ([RtEvent.remove instanceID],
        Except.ok
          { ID := instanceID, type := instanceType, Name := "", HostID := "",
            Address := "", Running := false })

/-- The controller command line built by `createController`
(docker.go lines 327-335), as the source builds it: a fixed preamble, a fold
appending `--replica <address>` per replica address, then the volume name. -/
def controllerCmd (data : dockerScheduleData) : List String :=
  let cmd := ["launch", "controller", "--listen", "0.0.0.0:9501", "--frontend", "tgt"]
  let cmd := data.ReplicaAddresses.foldl (fun c address => c ++ ["--replica", address]) cmd
  cmd ++ [data.VolumeName]

/-- The replica command line built by `createReplica`
(docker.go lines 428-433). -/
def replicaCmd (data : dockerScheduleData) : List String :=
  ["launch", "replica", "--listen", "0.0.0.0:9502", "--size", data.VolumeSize, "/volume"]

/-- Helper `getDeviceName` (docker.go lines 374-376). -/
def getDeviceName (volumeName : String) : String :=
  "/dev/longhorn/" ++ volumeName

/-- The local `createController` handler (docker.go lines 326-372): create
the container, start it (tearing the container down and surfacing the start
error if the start fails), rewrite the address to its HTTP form, then block
on the API-reachability and device-presence waits; a wait failure is
returned without any cleanup. -/
def createController (d : dockerOrc) (rt : Runtime) (data : dockerScheduleData) :
    List RtEvent × Except GoErr InstanceInfo :=
  let cmd := controllerCmd data
  let createEv := RtEvent.create data.InstanceName data.LonghornImage cmd
  match rt.createRes data.InstanceName cmd with
  | Except.error e =>
      ([createEv], Except.error (GoErr.wrap "fail to create controller container" e))
  | Except.ok cid =>
      match startInstance d rt cid InstanceType.controller with
      | (evs1, Except.error e) =>
          (createEv :: evs1 ++ (removeInstance rt cid InstanceType.controller).1,
            Except.error (GoErr.wrap "fail to start controller container" e))
      | (evs1, Except.ok inst0) =>
          let inst := { inst0 with Address := "http://" ++ inst0.Address ++ ":9501" }
          let url := inst.Address ++ "/v1"
          match rt.waitAPIRes url with
          | some e =>
              (createEv :: evs1,
                Except.error (GoErr.wrap ("fail to wait for api endpoint at " ++ url) e))
          | none =>
              match rt.waitDeviceRes (getDeviceName data.VolumeName) with
              | some e =>
                  (createEv :: evs1, Except.error (GoErr.wrap "fail to wait for device" e))
              | none => (createEv :: evs1, Except.ok inst)

/-- The local `createReplica` handler (docker.go lines 427-458): create the
container, start it (tearing the container down and surfacing the start error
if the start fails); no readiness wait. -/
def createReplica (d : dockerOrc) (rt : Runtime) (data : dockerScheduleData) :
    List RtEvent × Except GoErr InstanceInfo :=
  let cmd := replicaCmd data
  let createEv := RtEvent.create data.InstanceName data.LonghornImage cmd
  match rt.createRes data.InstanceName cmd with
  | Except.error e =>
      ([createEv], Except.error (GoErr.wrap "fail to create replica container" e))
  | Except.ok cid =>
      match startInstance d rt cid InstanceType.replica with
      | (evs1, Except.error e) =>
          (createEv :: evs1 ++ (removeInstance rt cid InstanceType.replica).1,
            Except.error (GoErr.wrap "fail to start replica container" e))
      | (evs1, Except.ok inst) => (createEv :: evs1, Except.ok inst)

/-- The payload a schedule item's opaque data unmarshals into
(`var data dockerScheduleData` plus the conditional `json.Unmarshal` of
docker.go lines 246-255); the malformed case never reaches a handler. -/
def payloadData : SchedulePayload → dockerScheduleData
  | SchedulePayload.payload dd => dd
  | _ => zeroScheduleData

/-- Operation `ProcessSchedule` (docker.go lines 245-272): validate the orchestrator
tag, unmarshal the payload when non-empty, reject an empty instance ID,
then dispatch on the action tag. -/
def ProcessSchedule (d : dockerOrc) (rt : Runtime) (item : ScheduleItem) :
    List RtEvent × Except GoErr InstanceInfo :=
  if item.Data.Orchestrator ≠ OrcName then
    ([], Except.error (GoErr.base
      ("received request for the wrong orchestrator " ++ item.Data.Orchestrator)))
  else if item.Data.Data = SchedulePayload.malformed then
    ([], Except.error (GoErr.wrap "fail to parse schedule data" (GoErr.base "invalid json")))
  else
    let data := payloadData item.Data.Data
    if item.Instance.ID = "" then
      ([], Except.error (GoErr.base "empty instance ID"))
    else if item.Action = ScheduleActionCreateController then
      createController d rt data
    else if item.Action = ScheduleActionCreateReplica then
      createReplica d rt data
    else if item.Action = ScheduleActionStartInstance then
      startInstance d rt item.Instance.ID item.Instance.type
    else if item.Action = ScheduleActionStopInstance then
      stopInstance d rt item.Instance.ID item.Instance.type
    else if item.Action = ScheduleActionDeleteInstance then
      removeInstance rt item.Instance.ID item.Instance.type
    else
      ([], Except.error (GoErr.base ("Cannot find specified action " ++ item.Action)))

/-- Helper `prepareCreateController` (docker.go lines 297-324): fetch the volume and
build the controller payload, formatting each replica endpoint as
`tcp://<address>:9502`.  Returned as the Go `(data, err)` pair; note that the
nil-volume branch wraps a nil error (so it would return `(nil, nil)`), exactly
as the source does. -/
def prepareCreateController (s : Store) (volumeName controllerName : String)
    (replicas : List (String × ReplicaInfo)) :
    Option ScheduleData × Option GoErr :=
  match getVolumePair s volumeName with
  | (_, some e) => (none, errorsWrap (some e) "unable to create controller")
  | (none, none) => (none, errorsWrap none ("unable to find volume " ++ volumeName))
  | (some volume, none) =>
      let data : dockerScheduleData :=
        { InstanceName := controllerName
          VolumeName := volumeName
          VolumeSize := ""
          LonghornImage := volume.LonghornImage
          ReplicaAddresses :=
            replicas.map (fun p => "tcp://" ++ p.2.Address ++ ":9502") }
      (some { Orchestrator := OrcName, Data := SchedulePayload.payload data }, none)

/-- Helper `prepareCreateReplica` (docker.go lines 400-425): fetch the volume, then
guard `volume.Size == 0`.  The guard's error is `errors.Wrap(err, ...)` with
`err` nil at that point, so — as in the source — the zero-size branch returns
`(nil, nil)`: no payload and no error. -/
def prepareCreateReplica (s : Store) (volumeName replicaName : String) :
    Option ScheduleData × Option GoErr :=
  match getVolumePair s volumeName with
  | (_, some e) => (none, errorsWrap (some e) "unable to create replica")
  | (none, none) => (none, errorsWrap none ("unable to find volume " ++ volumeName))
  | (some volume, none) =>
      if volume.Size = 0 then (none, errorsWrap none "invalid volume size 0")
      else
        let data : dockerScheduleData :=
          { InstanceName := replicaName
            VolumeName := volume.Name
            VolumeSize := toString volume.Size
            LonghornImage := volume.LonghornImage
            ReplicaAddresses := [] }
        (some { Orchestrator := OrcName, Data := SchedulePayload.payload data }, none)

/-- The schedule item `CreateController` builds (docker.go lines 279-287):
the instance is pinned to the current host's UUID. -/
def createControllerItem (d : dockerOrc) (controllerName : String)
    (data : ScheduleData) : ScheduleItem :=
  { Action := ScheduleActionCreateController
    Instance :=
      { ID := controllerName
        HostID := GetCurrentHostID d
        type := InstanceType.controller }
    Data := data }

/-- The schedule item `CreateReplica` builds (docker.go lines 383-390): no
`HostID` is set, so it carries Go's zero value `""`. -/
def createReplicaItem (replicaName : String) (data : ScheduleData) : ScheduleItem :=
  { Action := ScheduleActionCreateReplica
    Instance :=
      { ID := replicaName
        HostID := ""
        type := InstanceType.replica }
    Data := data }

/-- Operation `CreateController` (docker.go lines 274-295), with the scheduler passed
as an oracle.  Dereferencing the payload pointer when `prepareCreateController`
returned `(nil, nil)` is the source's nil-pointer panic. -/
def CreateController (d : dockerOrc) (s : Store)
    (volumeName controllerName : String) (replicas : List (String × ReplicaInfo))
    (sched : ScheduleItem → List RtEvent × GoResult InstanceInfo) :
    List RtEvent × GoResult ControllerInfo :=
  match prepareCreateController s volumeName controllerName replicas with
  | (_, some e) =>
      ([], GoResult.err (GoErr.wrap ("Fail to create controller for " ++ volumeName) e))
  | (none, none) =>
      ([], GoResult.panicked "invalid memory address or nil pointer dereference")
  | (some data, none) =>
      let schedule := createControllerItem d controllerName data
      match sched schedule with
      | (evs, GoResult.ok inst) => (evs, GoResult.ok { InstanceInfo := inst })
      | (evs, GoResult.err e) =>
          (evs, GoResult.err (GoErr.wrap ("Fail to create controller for " ++ volumeName) e))
      | (evs, GoResult.panicked m) => (evs, GoResult.panicked m)

/-- Operation `CreateReplica` (docker.go lines 378-398), with the scheduler passed as
an oracle.  For a zero-size volume `prepareCreateReplica` returns
`(nil, nil)`, so building the schedule item dereferences a nil payload
pointer: the call panics before the scheduler (and hence any container
create) is reached. -/
def CreateReplica (d : dockerOrc) (s : Store) (volumeName replicaName : String)
    (sched : ScheduleItem → List RtEvent × GoResult InstanceInfo) :
    List RtEvent × GoResult InstanceInfo :=
  match prepareCreateReplica s volumeName replicaName with
  | (_, some e) =>
      ([], GoResult.err (GoErr.wrap ("Fail to create replica for " ++ volumeName) e))
  | (none, none) =>
      ([], GoResult.panicked "invalid memory address or nil pointer dereference")
  | (some data, none) =>
      let schedule := createReplicaItem replicaName data
      match sched schedule with
      | (evs, GoResult.ok inst) => (evs, GoResult.ok inst)
      | (evs, GoResult.err e) =>
          (evs, GoResult.err (GoErr.wrap ("Fail to create replica for " ++ volumeName) e))
      | (evs, GoResult.panicked m) => (evs, GoResult.panicked m)

/-- A scheduler that routes the request to this same host's local executor,
as the orchestrator-backed scheduler does for a local placement. -/
def localSched (d : dockerOrc) (rt : Runtime) (item : ScheduleItem) :
    List RtEvent × GoResult InstanceInfo :=
  match ProcessSchedule d rt item with
  | (evs, Except.ok inst) => (evs, GoResult.ok inst)
  | (evs, Except.error e) => (evs, GoResult.err e)

/-- The flags contributed by the replica addresses in the controller command:
`--replica <address>` per address, in order. -/
def replicaFlags : List String → List String
  | [] => []
  | a :: rest => "--replica" :: a :: replicaFlags rest

/-- A concrete host identity used in concrete runs. -/
def hostA : HostInfo := { UUID := "host-1", Name := "h1", Address := "10.0.0.1:9500" }

/-- A concrete engine state used in concrete runs. -/
def dEx : dockerOrc := { currentHost := hostA }

/-- A runtime oracle on which every call succeeds. -/
def rtOk : Runtime :=
  { createRes := fun _ _ => Except.ok "cid-1"
    startRes := fun _ => none
    stopRes := fun _ => none
    removeRes := fun _ => none
    inspectRes := fun i =>
      Except.ok { ID := i, Name := "/c1", IPAddress := "10.0.0.6", Running := true }
    waitAPIRes := fun _ => none
    waitDeviceRes := fun _ => none }

/-- A runtime oracle on which container start fails. -/
def rtStartFail : Runtime := { rtOk with startRes := fun _ => some (GoErr.base "start failed") }

/-- A runtime oracle on which the API-reachability wait times out. -/
def rtApiTimeout : Runtime := { rtOk with waitAPIRes := fun _ => some (GoErr.base "timeout") }

/-- A concrete volume of size zero. -/
def vol0 : VolumeInfo := { Name := "vol0", Size := 0, LonghornImage := "longhorn/engine", Replicas := [] }

/-- A concrete replica record. -/
def r1 : ReplicaInfo := { Name := "r1", Address := "10.0.0.5", BadTimestamp := 0 }

/-- A second concrete replica record. -/
def r2 : ReplicaInfo := { Name := "r2", Address := "10.0.0.7", BadTimestamp := 0 }

/-- A concrete volume with two replicas. -/
def vol1 : VolumeInfo :=
  { Name := "vol1", Size := 1073741824, LonghornImage := "longhorn/engine",
    Replicas := [("r1", r1), ("r2", r2)] }

/-- A concrete store holding `vol0` and `vol1`. -/
def store1 : Store := [("vol0", vol0), ("vol1", vol1)]

/-- A concrete controller-creation payload. -/
def data1 : dockerScheduleData :=
  { InstanceName := "c1", VolumeName := "vol1", VolumeSize := "",
    LonghornImage := "longhorn/engine", ReplicaAddresses := ["tcp://10.0.0.5:9502"] }

/-- The inspection result `rtOk` reports for container `cid-1`. -/
def j1 : InspectJSON := { ID := "cid-1", Name := "/c1", IPAddress := "10.0.0.6", Running := true }

/-- The replica argument used in the concrete `MarkBadReplica` run. -/
def rBad : ReplicaInfo := { Name := "r2", Address := "10.9.9.9", BadTimestamp := 0 }

/-- Volume `vol1` with its `r2` entry stamped bad at time 7. -/
def vol1Stamped : VolumeInfo :=
  { vol1 with Replicas := [("r1", r1)] ++ [("r2", { r2 with BadTimestamp := 7 })] }

/-- Looking up a volume's name right after `setVolume` stored it returns that
record. -/
theorem lookup_setVolume_self (s : Store) (v : VolumeInfo) :
    List.lookup v.Name (setVolume s v) = some v := by
  induction s with
  | nil => simp [setVolume, List.lookup]
  | cons hd tl ih =>
    obtain ⟨k, w⟩ := hd
    by_cases h : k = v.Name
    · simp [setVolume, h, List.lookup]
    · have h2 : (v.Name == k) = false := by
        simp only [beq_eq_false_iff_ne]
        exact fun hh => h hh.symm
      simp [setVolume, h, List.lookup, h2, ih]

/-- C4: `UpdateVolume` on a name with no stored record fails with the
not-found error and returns the store unchanged (no write happens). -/
theorem UpdateVolume_absent_fails (s : Store) (volume : VolumeInfo)
    (habs : List.lookup volume.Name s = none) :
    UpdateVolume s volume =
      (Except.error (GoErr.base
        ("cannot update volume " ++ volume.Name ++ " because it doesn't exists")), s) := by
  simp [UpdateVolume, getVolume, habs]

/-- Witness for C4: updating a never-created volume name on the empty store. -/
theorem UpdateVolume_absent_fails_witness :
    UpdateVolume [] { Name := "vol-x", Size := 1, LonghornImage := "img", Replicas := [] } =
      (Except.error (GoErr.base
        ("cannot update volume " ++ "vol-x" ++ " because it doesn't exists")), []) :=
  UpdateVolume_absent_fails []
    { Name := "vol-x", Size := 1, LonghornImage := "img", Replicas := [] } rfl

/-- C5: `CreateVolume` fails with the already-exists error and leaves the
store unchanged when a record of the same name is persisted; otherwise it
persists the record verbatim, returns it, and an immediately following
`GetVolume` returns a record equal to the input. -/
theorem CreateVolume_spec (s : Store) (v : VolumeInfo) :
    (∀ w, List.lookup v.Name s = some w →
      CreateVolume s v =
        (Except.error (GoErr.base ("volume " ++ v.Name ++ " already exists")), s))
    ∧ (List.lookup v.Name s = none →
      CreateVolume s v = (Except.ok v, setVolume s v)
        ∧ GetVolume (setVolume s v) v.Name = Except.ok v) := by
  constructor
  · intro w hw
    simp [CreateVolume, createVolumeWith, getVolumePair, getVolume, hw]
  · intro hn
    refine ⟨by simp [CreateVolume, createVolumeWith, getVolumePair, getVolume, hn], ?_⟩
    simp [GetVolume, getVolume, lookup_setVolume_self]

/-- Witness for C5: a duplicate create of `vol1` fails on `store1`, and a
fresh create on the empty store persists and round-trips. -/
theorem CreateVolume_spec_witness :
    CreateVolume store1 vol1 =
      (Except.error (GoErr.base ("volume " ++ vol1.Name ++ " already exists")), store1)
    ∧ CreateVolume [] vol1 = (Except.ok vol1, setVolume [] vol1)
    ∧ GetVolume (setVolume [] vol1) vol1.Name = Except.ok vol1 := by
  refine ⟨(CreateVolume_spec store1 vol1).1 vol1 (by decide), ?_, ?_⟩
  · exact ((CreateVolume_spec [] vol1).2 rfl).1
  · exact ((CreateVolume_spec [] vol1).2 rfl).2

/-- C10: the existence check of `CreateVolume` discards a failed store read:
when the read returns an error the record is persisted anyway, and the
duplicate error fires exactly when the read succeeded and returned an
existing record; `CreateVolume` is this check applied to the store read. -/
theorem createVolumeWith_discards_read_error (s : Store) (volume : VolumeInfo) :
    (∀ (v : Option VolumeInfo) (e : GoErr),
      createVolumeWith (v, some e) s volume = (Except.ok volume, setVolume s volume))
    ∧ (∀ r : Option VolumeInfo × Option GoErr,
      (∃ err, (createVolumeWith r s volume).1 = Except.error err) ↔
        (r.2 = none ∧ r.1 ≠ none))
    ∧ CreateVolume s volume = createVolumeWith (getVolumePair s volume.Name) s volume := by
  refine ⟨?_, ?_, rfl⟩
  · intro v e
    simp [createVolumeWith]
  · intro r
    obtain ⟨v, err⟩ := r
    cases err <;> cases v <;> simp [createVolumeWith]

/-- C9: the schedule item `CreateController` builds pins the instance to the
current host's UUID, while the one `CreateReplica` builds leaves the host ID
empty, delegating placement to the scheduler. -/
theorem scheduleItem_host_pinning (d : dockerOrc) (controllerName replicaName : String)
    (sd : ScheduleData) :
    (createControllerItem d controllerName sd).Instance.HostID = GetCurrentHostID d
    ∧ (createReplicaItem replicaName sd).Instance.HostID = ""
    ∧ (createControllerItem d controllerName sd).Instance.ID = controllerName
    ∧ (createReplicaItem replicaName sd).Instance.ID = replicaName :=
  ⟨rfl, rfl, rfl, rfl⟩

/-- Handler `removeInstance` always issues exactly the remove call for its
container, whatever the call's result. -/
theorem removeInstance_events (rt : Runtime) (id : String) (t : InstanceType) :
    (removeInstance rt id t).1 = [RtEvent.remove id] := by
  unfold removeInstance
  cases rt.removeRes id <;> simp

/-- C2: when the container was created but its start fails, both
`createController` and `createReplica` issue a remove for the just-created
container and then return the wrapped start error. -/
theorem create_cleanup_on_start_failure (d : dockerOrc) (rt : Runtime)
    (data : dockerScheduleData) (cid rid : String) (e1 e2 : GoErr)
    (hc : rt.createRes data.InstanceName (controllerCmd data) = Except.ok cid)
    (hs : rt.startRes cid = some e1)
    (hcr : rt.createRes data.InstanceName (replicaCmd data) = Except.ok rid)
    (hsr : rt.startRes rid = some e2) :
    createController d rt data =
      ([RtEvent.create data.InstanceName data.LonghornImage (controllerCmd data),
        RtEvent.start cid, RtEvent.remove cid],
        Except.error (GoErr.wrap "fail to start controller container"
          (GoErr.wrap ("fail to start instance " ++ cid) e1)))
    ∧ createReplica d rt data =
      ([RtEvent.create data.InstanceName data.LonghornImage (replicaCmd data),
        RtEvent.start rid, RtEvent.remove rid],
        Except.error (GoErr.wrap "fail to start replica container"
          (GoErr.wrap ("fail to start instance " ++ rid) e2))) := by
  constructor
  · simp [createController, startInstance, removeInstance_events, hc, hs]
  · simp [createReplica, startInstance, removeInstance_events, hcr, hsr]

/-- Witness for C2: on a runtime where start fails, the concrete run creates,
starts, then removes, and surfaces the wrapped start error. -/
theorem create_cleanup_on_start_failure_witness :
    createController dEx rtStartFail data1 =
      ([RtEvent.create data1.InstanceName data1.LonghornImage (controllerCmd data1),
        RtEvent.start "cid-1", RtEvent.remove "cid-1"],
        Except.error (GoErr.wrap "fail to start controller container"
          (GoErr.wrap ("fail to start instance " ++ "cid-1") (GoErr.base "start failed"))))
    ∧ createReplica dEx rtStartFail data1 =
      ([RtEvent.create data1.InstanceName data1.LonghornImage (replicaCmd data1),
        RtEvent.start "cid-1", RtEvent.remove "cid-1"],
        Except.error (GoErr.wrap "fail to start replica container"
          (GoErr.wrap ("fail to start instance " ++ "cid-1") (GoErr.base "start failed")))) :=
  create_cleanup_on_start_failure dEx rtStartFail data1 "cid-1" "cid-1"
    (GoErr.base "start failed") (GoErr.base "start failed") rfl rfl rfl rfl

/-- C3: when the container was created and started but the API-reachability
wait or the device-presence wait times out, `createController` returns the
wrapped readiness error and the calls issued are exactly create, start and
inspect — no remove is issued, so the container is left created and
running. -/
theorem createController_no_rollback_on_wait_timeout (d : dockerOrc) (rt : Runtime)
    (data : dockerScheduleData) (cid : String) (j : InspectJSON) (e : GoErr)
    (hc : rt.createRes data.InstanceName (controllerCmd data) = Except.ok cid)
    (hs : rt.startRes cid = none)
    (hi : rt.inspectRes cid = Except.ok j) :
    (rt.waitAPIRes ("http://" ++ j.IPAddress ++ ":9501" ++ "/v1") = some e →
      createController d rt data =
        ([RtEvent.create data.InstanceName data.LonghornImage (controllerCmd data),
          RtEvent.start cid, RtEvent.inspect cid],
          Except.error (GoErr.wrap
            ("fail to wait for api endpoint at " ++ ("http://" ++ j.IPAddress ++ ":9501" ++ "/v1")) e)))
    ∧ (rt.waitAPIRes ("http://" ++ j.IPAddress ++ ":9501" ++ "/v1") = none →
       rt.waitDeviceRes (getDeviceName data.VolumeName) = some e →
      createController d rt data =
        ([RtEvent.create data.InstanceName data.LonghornImage (controllerCmd data),
          RtEvent.start cid, RtEvent.inspect cid],
          Except.error (GoErr.wrap "fail to wait for device" e))) := by
  constructor
  · intro hw
    simp [createController, startInstance, generateInstanceInfo, hc, hs, hi, hw]
  · intro hw hd
    simp [createController, startInstance, generateInstanceInfo, hc, hs, hi, hw, hd]

/-- Witness for C3: on a runtime where the API wait times out, the concrete
run creates, starts and inspects only, and surfaces the wrapped wait error. -/
theorem createController_no_rollback_on_wait_timeout_witness :
    createController dEx rtApiTimeout data1 =
      ([RtEvent.create data1.InstanceName data1.LonghornImage (controllerCmd data1),
        RtEvent.start "cid-1", RtEvent.inspect "cid-1"],
        Except.error (GoErr.wrap
          ("fail to wait for api endpoint at " ++ ("http://" ++ j1.IPAddress ++ ":9501" ++ "/v1"))
          (GoErr.base "timeout"))) :=
  (createController_no_rollback_on_wait_timeout dEx rtApiTimeout data1 "cid-1" j1
    (GoErr.base "timeout") rfl rfl rfl).1 rfl

/-- The fold the source uses to append the replica flags equals the closed
per-address flag list. -/
theorem foldl_replicaFlags (l : List String) (init : List String) :
    l.foldl (fun c address => c ++ ["--replica", address]) init = init ++ replicaFlags l := by
  induction l generalizing init with
  | nil => simp [replicaFlags]
  | cons a t ih => simp [replicaFlags, ih]

/-- C8: the controller command is exactly the fixed preamble
`launch controller --listen 0.0.0.0:9501 --frontend tgt`, one
`--replica <address>` pair per payload address, and the volume name last;
and the payload built by `prepareCreateController` formats every replica
endpoint as `tcp://<address>:9502`. -/
theorem controllerCmd_and_payload_shape (s : Store)
    (volumeName controllerName : String) (replicas : List (String × ReplicaInfo))
    (volume : VolumeInfo) (hv : List.lookup volumeName s = some volume) :
    (∀ data : dockerScheduleData,
      controllerCmd data =
        ["launch", "controller", "--listen", "0.0.0.0:9501", "--frontend", "tgt"]
          ++ replicaFlags data.ReplicaAddresses ++ [data.VolumeName])
    ∧ prepareCreateController s volumeName controllerName replicas =
        (some { Orchestrator := OrcName
                Data := SchedulePayload.payload
                  { InstanceName := controllerName
                    VolumeName := volumeName
                    VolumeSize := ""
                    LonghornImage := volume.LonghornImage
                    ReplicaAddresses :=
                      replicas.map (fun p => "tcp://" ++ p.2.Address ++ ":9502") } },
          none) := by
  constructor
  · intro data
    simp [controllerCmd, foldl_replicaFlags]
  · simp [prepareCreateController, getVolumePair, getVolume, hv]

/-- Witness for C8: the command and payload for `vol1` with one replica. -/
theorem controllerCmd_and_payload_shape_witness :
    controllerCmd data1 =
      ["launch", "controller", "--listen", "0.0.0.0:9501", "--frontend", "tgt"]
        ++ replicaFlags data1.ReplicaAddresses ++ [data1.VolumeName]
    ∧ prepareCreateController store1 "vol1" "c1" [("r1", r1)] =
        (some { Orchestrator := OrcName
                Data := SchedulePayload.payload
                  { InstanceName := "c1"
                    VolumeName := "vol1"
                    VolumeSize := ""
                    LonghornImage := vol1.LonghornImage
                    ReplicaAddresses :=
                      [("r1", r1)].map (fun p => "tcp://" ++ p.2.Address ++ ":9502") } },
          none) :=
  ⟨(controllerCmd_and_payload_shape store1 "vol1" "c1" [("r1", r1)] vol1 (by decide)).1 data1,
   (controllerCmd_and_payload_shape store1 "vol1" "c1" [("r1", r1)] vol1 (by decide)).2⟩

/-- C7: `ProcessSchedule` fails on a request tagged for another orchestrator,
fails on an empty instance ID, fails with the unknown-action error when the
action is none of the five known tags, and otherwise dispatches to the
handler matching the action. -/
theorem ProcessSchedule_dispatch (d : dockerOrc) (rt : Runtime) (item : ScheduleItem) :
    (item.Data.Orchestrator ≠ OrcName →
      ProcessSchedule d rt item =
        ([], Except.error (GoErr.base
          ("received request for the wrong orchestrator " ++ item.Data.Orchestrator))))
    ∧ (item.Instance.ID = "" → ∃ e, (ProcessSchedule d rt item).2 = Except.error e)
    ∧ (item.Data.Orchestrator = OrcName →
       item.Data.Data ≠ SchedulePayload.malformed →
       item.Instance.ID ≠ "" →
        ((item.Action = ScheduleActionCreateController →
           ProcessSchedule d rt item = createController d rt (payloadData item.Data.Data))
        ∧ (item.Action = ScheduleActionCreateReplica →
           ProcessSchedule d rt item = createReplica d rt (payloadData item.Data.Data))
        ∧ (item.Action = ScheduleActionStartInstance →
           ProcessSchedule d rt item = startInstance d rt item.Instance.ID item.Instance.type)
        ∧ (item.Action = ScheduleActionStopInstance →
           ProcessSchedule d rt item = stopInstance d rt item.Instance.ID item.Instance.type)
        ∧ (item.Action = ScheduleActionDeleteInstance →
           ProcessSchedule d rt item = removeInstance rt item.Instance.ID item.Instance.type)
        ∧ (item.Action ≠ ScheduleActionCreateController →
           item.Action ≠ ScheduleActionCreateReplica →
           item.Action ≠ ScheduleActionStartInstance →
           item.Action ≠ ScheduleActionStopInstance →
           item.Action ≠ ScheduleActionDeleteInstance →
           ProcessSchedule d rt item =
             ([], Except.error (GoErr.base
               ("Cannot find specified action " ++ item.Action)))))) := by
  refine ⟨?_, ?_, ?_⟩
  · intro h
    simp [ProcessSchedule, h]
  · intro h
    by_cases ho : item.Data.Orchestrator = OrcName
    · by_cases hm : item.Data.Data = SchedulePayload.malformed
      · exact ⟨GoErr.wrap "fail to parse schedule data" (GoErr.base "invalid json"),
          by simp [ProcessSchedule, ho, hm]⟩
      · exact ⟨GoErr.base "empty instance ID", by simp [ProcessSchedule, ho, hm, h]⟩
    · exact ⟨GoErr.base
        ("received request for the wrong orchestrator " ++ item.Data.Orchestrator),
        by simp [ProcessSchedule, ho]⟩
  · intro ho hm hid
    have d12 : ScheduleActionCreateReplica ≠ ScheduleActionCreateController := by decide
    have d13 : ScheduleActionStartInstance ≠ ScheduleActionCreateController := by decide
    have d23 : ScheduleActionStartInstance ≠ ScheduleActionCreateReplica := by decide
    have d14 : ScheduleActionStopInstance ≠ ScheduleActionCreateController := by decide
    have d24 : ScheduleActionStopInstance ≠ ScheduleActionCreateReplica := by decide
    have d34 : ScheduleActionStopInstance ≠ ScheduleActionStartInstance := by decide
    have d15 : ScheduleActionDeleteInstance ≠ ScheduleActionCreateController := by decide
    have d25 : ScheduleActionDeleteInstance ≠ ScheduleActionCreateReplica := by decide
    have d35 : ScheduleActionDeleteInstance ≠ ScheduleActionStartInstance := by decide
    have d45 : ScheduleActionDeleteInstance ≠ ScheduleActionStopInstance := by decide
    refine ⟨?_, ?_, ?_, ?_, ?_, ?_⟩
    · intro ha
      simp [ProcessSchedule, ho, hm, hid, ha]
    · intro ha
      simp [ProcessSchedule, ho, hm, hid, ha, d12]
    · intro ha
      simp [ProcessSchedule, ho, hm, hid, ha, d13, d23]
    · intro ha
      simp [ProcessSchedule, ho, hm, hid, ha, d14, d24, d34]
    · intro ha
      simp [ProcessSchedule, ho, hm, hid, ha, d15, d25, d35, d45]
    · intro h1 h2 h3 h4 h5
      simp [ProcessSchedule, ho, hm, hid, h1, h2, h3, h4, h5]

/-- Witness for C7: a well-formed start-instance request dispatches to the
local start handler. -/
theorem ProcessSchedule_dispatch_witness :
    ProcessSchedule dEx rtOk
      { Action := ScheduleActionStartInstance
        Instance := { ID := "i1", HostID := "", type := InstanceType.replica }
        Data := { Orchestrator := OrcName, Data := SchedulePayload.empty } } =
      startInstance dEx rtOk "i1" InstanceType.replica :=
  ((ProcessSchedule_dispatch dEx rtOk
      { Action := ScheduleActionStartInstance
        Instance := { ID := "i1", HostID := "", type := InstanceType.replica }
        Data := { Orchestrator := OrcName, Data := SchedulePayload.empty } }).2.2
    rfl (by decide) (by decide)).2.2.1 rfl

/-- The stamping loop applied to a replica list split at its first matching
entry stamps exactly that entry. -/
theorem stampFirst_eq (now : Nat) (name : String)
    (l1 l2 : List (String × ReplicaInfo)) (k : String) (r : ReplicaInfo)
    (hmatch : r.Name = name) (hbefore : ∀ q ∈ l1, q.2.Name ≠ name) :
    stampFirst now name (l1 ++ (k, r) :: l2) =
      l1 ++ (k, { r with BadTimestamp := now }) :: l2 := by
  induction l1 with
  | nil => simp [stampFirst, hmatch]
  | cons hd tl ih =>
    have h1 : hd.2.Name ≠ name := hbefore hd (List.mem_cons_self _ _)
    have h2 := ih (fun q hq => hbefore q (List.mem_cons_of_mem _ hq))
    obtain ⟨k0, r0⟩ := hd
    simp only [List.cons_append, stampFirst]
    simp only at h1
    simp [h1, h2]

/-- C6: `MarkBadReplica` on a volume whose replica list contains an entry
named like the argument (split here as the entries before the first match,
the match, and the rest) persists the volume with exactly that entry's
`BadTimestamp` set to the current time — non-zero and at least the time
before the call — and every other entry unchanged. -/
theorem MarkBadReplica_stamps_matching_entry (s : Store) (volumeName : String)
    (replica : ReplicaInfo) (now tBefore : Nat) (v : VolumeInfo)
    (l1 l2 : List (String × ReplicaInfo)) (k : String) (r : ReplicaInfo)
    (hv : List.lookup volumeName s = some v)
    (hname : v.Name = volumeName)
    (hsplit : v.Replicas = l1 ++ (k, r) :: l2)
    (hmatch : r.Name = replica.Name)
    (hbefore : ∀ q ∈ l1, q.2.Name ≠ replica.Name)
    (hpos : 0 < now) (hle : tBefore ≤ now) :
    MarkBadReplica s volumeName replica now =
      (Except.ok (),
        setVolume s { v with Replicas := l1 ++ (k, { r with BadTimestamp := now }) :: l2 })
    ∧ List.lookup volumeName
        (setVolume s { v with Replicas := l1 ++ (k, { r with BadTimestamp := now }) :: l2 })
        = some { v with Replicas := l1 ++ (k, { r with BadTimestamp := now }) :: l2 }
    ∧ ({ r with BadTimestamp := now } : ReplicaInfo).BadTimestamp ≠ 0
    ∧ tBefore ≤ ({ r with BadTimestamp := now } : ReplicaInfo).BadTimestamp := by
  have hstamp : stampFirst now replica.Name v.Replicas =
      l1 ++ (k, { r with BadTimestamp := now }) :: l2 := by
    rw [hsplit]
    exact stampFirst_eq now replica.Name l1 l2 k r hmatch hbefore
  refine ⟨?_, ?_, ?_, ?_⟩
  · simp [MarkBadReplica, UpdateVolume, getVolume, hv, hname, hstamp]
  · have := lookup_setVolume_self s
      { v with Replicas := l1 ++ (k, { r with BadTimestamp := now }) :: l2 }
    simpa [hname] using this
  · simpa using Nat.pos_iff_ne_zero.mp hpos
  · simpa using hle

/-- Witness for C6: marking `r2` bad inside `vol1` at time 7 stamps exactly
the `r2` entry and persists the updated volume. -/
theorem MarkBadReplica_stamps_matching_entry_witness :
    MarkBadReplica store1 "vol1" rBad 7 = (Except.ok (), setVolume store1 vol1Stamped)
    ∧ List.lookup "vol1" (setVolume store1 vol1Stamped) = some vol1Stamped
    ∧ (({ r2 with BadTimestamp := 7 } : ReplicaInfo).BadTimestamp ≠ 0)
    ∧ 3 ≤ ({ r2 with BadTimestamp := 7 } : ReplicaInfo).BadTimestamp :=
  MarkBadReplica_stamps_matching_entry store1 "vol1" rBad 7 3 vol1
    [("r1", r1)] [] "r2" r2 (by decide) rfl rfl rfl (by decide) (by decide) (by decide)

/-- Counterexample to C1: `vol0` has size 0, yet `CreateController` run
against it (with a local scheduler and a runtime on which every call
succeeds) does not fail — it returns the controller instance — and a
container-create call is issued. -/
theorem CreateController_zero_size_still_creates :
    (CreateController dEx store1 "vol0" "c0" [] (localSched dEx rtOk)).2 =
      GoResult.ok { InstanceInfo :=
        { ID := "cid-1", type := InstanceType.controller, Name := "c1",
          HostID := "host-1", Address := "http://10.0.0.6:9501", Running := true } }
    ∧ RtEvent.create "c0" "longhorn/engine"
        ["launch", "controller", "--listen", "0.0.0.0:9501", "--frontend", "tgt", "vol0"]
        ∈ (CreateController dEx store1 "vol0" "c0" [] (localSched dEx rtOk)).1 := by
  constructor
  · decide
  · decide

/-- C1 amended: the zero-size guard lives in replica creation, not controller
creation: for a volume of size 0, `CreateReplica` halts before any container
create call (its prepare step returns neither payload nor error, because the
guard wraps a nil error, and the caller then dereferences the missing payload
— a panic, issued before the scheduler is ever invoked), while
`prepareCreateController` performs no size check and succeeds. -/
theorem CreateReplica_zero_size_halts_before_create (d : dockerOrc) (s : Store)
    (volumeName replicaName cname : String) (volume : VolumeInfo)
    (reps : List (String × ReplicaInfo))
    (sched : ScheduleItem → List RtEvent × GoResult InstanceInfo)
    (hv : List.lookup volumeName s = some volume) (hz : volume.Size = 0) :
    CreateReplica d s volumeName replicaName sched =
      ([], GoResult.panicked "invalid memory address or nil pointer dereference")
    ∧ (prepareCreateController s volumeName cname reps).2 = none := by
  constructor
  · simp [CreateReplica, prepareCreateReplica, getVolumePair, getVolume, errorsWrap, hv, hz]
  · simp [prepareCreateController, getVolumePair, getVolume, hv]

/-- Witness for C1's amended statement: the concrete zero-size volume
`vol0`. -/
theorem CreateReplica_zero_size_halts_before_create_witness :
    CreateReplica dEx store1 "vol0" "r9" (localSched dEx rtOk) =
      ([], GoResult.panicked "invalid memory address or nil pointer dereference")
    ∧ (prepareCreateController store1 "vol0" "c9" []).2 = none :=
  CreateReplica_zero_size_halts_before_create dEx store1 "vol0" "r9" "c9" vol0 []
    (localSched dEx rtOk) (by decide) rfl
